import Mathlib

/-!
# terraform-provider-gns3: HTTP client and provider shell

A shallow embedding of `internal/client/client.go` and
`internal/provider/provider.go`, followed by the properties established
about them.

Conventions of the embedding:

* a Go `string` and a Go `[]byte` are both finite byte sequences (`List UInt8`);
  string literals of the source are written `lit "..."` (their UTF-8 bytes);
* a Go `error` result is `Option GoError` (`none` is the nil error), a Go
  `[]byte` result is `Option Bytes` (`none` is the nil slice);
* a Go `int` that is only copied, compared and printed is an `Int`;
* a method with a pointer receiver or an out-parameter (`resp *T`) takes the
  entry state of that object and returns its exit state;
* what the standard library and the plugin framework do (`http.Client.Do`,
  `io.ReadAll`, `fmt.Errorf`, `diag.Diagnostics`) is embedded from their
  documented behaviour; the network itself is a parameter `net`;
* the call of `NewClient` in `Configure` does not match the declaration of
  `NewClient`, so the function called there is a parameter `newClient`.
-/

namespace GNS3

/-! ## Go values -/

/-- Byte sequences: the contents of a Go `[]byte`. -/
abbrev Bytes := List UInt8

/-- Go strings are immutable byte sequences. -/
abbrev GoString := List UInt8

/-- The bytes of a source string literal (UTF-8, as the Go compiler stores it). -/
def lit (s : String) : GoString :=
  s.toList.flatMap String.utf8EncodeChar

/-- Decimal digits of a natural number as ASCII bytes. -/
def natDigits (n : Nat) : GoString :=
  (Nat.toDigits 10 n).map (fun ch => ch.toNat.toUInt8)

/-- The verb `%d` of package `fmt` applied to an `int`: signed decimal. -/
def fmtInt : Int → GoString
  | Int.ofNat n => natDigits n
  | Int.negSucc n => lit "-" ++ natDigits (n + 1)

/-- Go error values. `foreign` stands for an error value produced outside this
package (by the transport or by the body reader), identified by `id`;
`errorf` is the value built by `fmt.Errorf`, carrying its message. -/
inductive GoError where
  | foreign (id : Nat)
  | errorf (msg : GoString)
deriving DecidableEq, Repr

/-! ## `net/http` and `io` as seen by the client -/

/-- The constant `http.StatusOK`. -/
def StatusOK : Int := 200

/-- The constant `time.Second`, in nanoseconds (the unit of `time.Duration`). -/
def Second : Nat := 1000000000

/-- The fields of `http.Client` the source sets: only `Timeout`. -/
structure HTTPClientT where
  Timeout : Nat
deriving DecidableEq, Repr

/-- What `io.ReadAll(res.Body)` returns: the data read up to the end of the
body or up to the first error, and that error (`none` at a clean end). -/
structure ReadAllResult where
  data : Bytes
  err : Option GoError
deriving DecidableEq, Repr

/-- The parts of `*http.Response` the source reads: the status code and the
body stream, the latter given by what reading it to the end yields. -/
structure Response where
  StatusCode : Int
  Body : ReadAllResult
deriving DecidableEq, Repr

/-- A request as assembled by the caller. -/
structure Request where
  Method : GoString
  URL : GoString
  Header : List (GoString × GoString)
  Body : Bytes
deriving DecidableEq, Repr

/-- The two outcomes of `http.Client.Do`: a non-nil error (any response
returned with it is to be ignored), or a nil error with a non-nil response. -/
inductive DoResult where
  | failed (res : Option Response) (err : GoError)
  | ok (res : Response)
deriving DecidableEq, Repr

/-- The network: what `Do` yields for a given client configuration and request. -/
abbrev Transport := HTTPClientT → Request → DoResult

/-! ## `internal/client/client.go` -/

/-- The struct `Client`. -/
structure Client where
  HostURL : GoString
  HTTPClient : HTTPClientT
deriving DecidableEq, Repr

/-- The function `NewClient(host *string) (*Client, error)`; a nil pointer is `none`. -/
def NewClient (host : Option GoString) : Client × Option GoError :=
  let c : Client :=
    { HTTPClient := { Timeout := 10 * Second }
      HostURL := lit "http://localhost:3080" }
  let c : Client :=
    match host with
    | some h => { c with HostURL := h }
    | none => c
  (c, none)

/-- The call `fmt.Errorf("status: %d, body: %s", code, body)`: `%s` applied to a
`[]byte` writes its bytes as they are. -/
def statusErrorf (code : Int) (body : Bytes) : GoError :=
  GoError.errorf (lit "status: " ++ fmtInt code ++ lit ", body: " ++ body)

/-- The method `(c *Client) doRequest(req *http.Request) ([]byte, error)`.
The deferred `res.Body.Close()` does not touch the returned values. -/
def Client.doRequest (net : Transport) (c : Client) (req : Request) :
    Option Bytes × Option GoError :=
  match net c.HTTPClient req with
  | DoResult.failed _ err => (none, some err)
  | DoResult.ok res =>
    match res.Body.err with
    | some err => (none, some err)
    | none =>
      if res.StatusCode ≠ StatusOK then
        (none, some (statusErrorf res.StatusCode res.Body.data))
      else
        (some res.Body.data, none)

/-! ## The plugin framework as seen by the provider -/

/-- Whether a configuration value is null, not yet known, or known. -/
inductive AttrState where
  | Null
  | Unknown
  | Known
deriving DecidableEq, Repr

/-- The type `types.String`: a state and, when known, the string. -/
structure StringValue where
  state : AttrState
  Value : GoString
deriving DecidableEq, Repr

/-- The type `basetypes.Int32Value`: a state and, when known, the number. -/
structure Int32Value where
  state : AttrState
  Value : Int
deriving DecidableEq, Repr

/-- The method `IsUnknown` of `types.String`. -/
def StringValue.IsUnknown (v : StringValue) : Bool :=
  v.state == AttrState.Unknown

/-- The method `IsUnknown` of `basetypes.Int32Value`. -/
def Int32Value.IsUnknown (v : Int32Value) : Bool :=
  v.state == AttrState.Unknown

/-- Severity of a diagnostic. -/
inductive Severity where
  | Invalid
  | Error
  | Warning
deriving DecidableEq, Repr

/-- Attribute paths; only root attribute names occur here. -/
abbrev AttrPath := List GoString

/-- The function `path.Root`. -/
def Root (name : GoString) : AttrPath := [name]

/-- A diagnostic: severity, summary, detail and, for an attribute diagnostic,
the attribute path. Two diagnostics are `Equal` in the framework when they
are of the same kind and agree on all of these. -/
structure Diagnostic where
  Severity : Severity
  Summary : GoString
  Detail : GoString
  Path : Option AttrPath
deriving DecidableEq, Repr

/-- The type `diag.Diagnostics`: a slice of diagnostics. -/
abbrev Diagnostics := List Diagnostic

/-- The method `Diagnostics.Contains`. -/
def Diagnostics.Contains (diags : Diagnostics) (d : Diagnostic) : Bool :=
  diags.any (fun x => decide (x = d))

/-- The method `Diagnostics.Append`: adds each given diagnostic in order,
skipping one that the collection already contains. -/
def Diagnostics.Append (diags : Diagnostics) (new : List Diagnostic) : Diagnostics :=
  new.foldl (fun acc d => if Diagnostics.Contains acc d then acc else acc ++ [d]) diags

/-- The method `Diagnostics.HasError`. -/
def Diagnostics.HasError (diags : Diagnostics) : Bool :=
  diags.any (fun x => decide (x.Severity = Severity.Error))

/-- The function `diag.NewAttributeErrorDiagnostic`. -/
def NewAttributeErrorDiagnostic (p : AttrPath) (summary detail : GoString) : Diagnostic :=
  { Severity := Severity.Error, Summary := summary, Detail := detail, Path := some p }

/-- The method `Diagnostics.AddAttributeError`. -/
def Diagnostics.AddAttributeError (diags : Diagnostics) (p : AttrPath)
    (summary detail : GoString) : Diagnostics :=
  Diagnostics.Append diags [NewAttributeErrorDiagnostic p summary detail]

/-- Number of error diagnostics in a collection. -/
def Diagnostics.errorCount (diags : Diagnostics) : Nat :=
  diags.countP (fun x => decide (x.Severity = Severity.Error))

/-- Kinds of schema attribute used by the provider. -/
inductive AttrKind where
  | StringAttribute
  | Int32Attribute
deriving DecidableEq, Repr

/-- The fields shared by `schema.StringAttribute` and `schema.Int32Attribute` of
the provider schema package (which has no field for a default value); a field
the source leaves out of a literal has its zero value. -/
structure Attribute where
  kind : AttrKind
  Required : Bool := false
  Optional : Bool := false
  Sensitive : Bool := false
  Description : GoString := []
  MarkdownDescription : GoString := []
  DeprecationMessage : GoString := []
deriving DecidableEq, Repr

/-- The type `schema.Schema`: the attribute map, as a list of entries with
distinct keys. -/
structure Schema where
  Attributes : List (GoString × Attribute) := []
deriving DecidableEq, Repr

/-- Lookup in the attribute map. -/
def Schema.attr (s : Schema) (name : GoString) : Option Attribute :=
  (s.Attributes.find? (fun e => decide (e.1 = name))).map Prod.snd

/-- A Go value of interface type `any`, as stored in the response's data
fields: nil, a pointer to a client, or some other value. -/
inductive AnyVal where
  | nil
  | clientPtr (c : Client)
  | other (id : Nat)
deriving DecidableEq, Repr

/-! ## `internal/provider/provider.go` -/

/-- The struct `gns3Provider`. -/
structure gns3Provider where
  version : GoString
deriving DecidableEq, Repr

/-- The struct `gns3ProviderModel`. -/
structure gns3ProviderModel where
  Host : StringValue
  Port : Int32Value
deriving DecidableEq, Repr

/-- The configuration of a request, given by what `req.Config.Get(ctx, &config)`
yields: the diagnostics it returns and the model it fills in. -/
structure ConfigData where
  diags : Diagnostics
  model : gns3ProviderModel
deriving DecidableEq, Repr

/-- The method `Config.Get`. -/
def ConfigData.Get (c : ConfigData) : Diagnostics × gns3ProviderModel :=
  (c.diags, c.model)

/-- The struct `provider.ConfigureRequest`. -/
structure ConfigureRequest where
  Config : ConfigData
deriving DecidableEq, Repr

/-- The struct `provider.ConfigureResponse`. -/
structure ConfigureResponse where
  Diagnostics : Diagnostics
  DataSourceData : AnyVal
  ResourceData : AnyVal
deriving DecidableEq, Repr

/-- The struct `provider.MetadataResponse`. -/
structure MetadataResponse where
  TypeName : GoString
  Version : GoString
deriving DecidableEq, Repr

/-- The struct `provider.SchemaResponse`. -/
structure SchemaResponse where
  Schema : Schema
  Diagnostics : Diagnostics
deriving DecidableEq, Repr

/-- The method `gns3Provider.Metadata`. -/
def gns3Provider.Metadata (p : gns3Provider) (resp : MetadataResponse) : MetadataResponse :=
  { resp with TypeName := lit "gns3", Version := p.version }

/-- The method `gns3Provider.Schema`. -/
def gns3Provider.Schema (_p : gns3Provider) (resp : SchemaResponse) : SchemaResponse :=
  { resp with
    Schema :=
      { Attributes :=
          [ (lit "host",
              { kind := AttrKind.StringAttribute
                Optional := false
                Description := lit "The host of the GNS3 server." }),
            (lit "port",
              { kind := AttrKind.Int32Attribute
                Optional := false
                Description := lit "The port for the GNS3 server." }) ] } }

/-- The diagnostic `Configure` builds for an unknown host. -/
def hostUnknownError : Diagnostic :=
  NewAttributeErrorDiagnostic (Root (lit "host"))
    (lit "Unknown GNS3 Host")
    (lit "The provider cannot create the GNS3 client as there is an unknown configuration value for the GNS3 server host. " ++
      lit "Set the value statically in the provider configuration.")

/-- The diagnostic `Configure` builds for an unknown port. -/
def portUnknownError : Diagnostic :=
  NewAttributeErrorDiagnostic (Root (lit "port"))
    (lit "Unknown GNS3 Port")
    (lit "The provider cannot create the GNS3 client as there is an unknown configuration value for the GNS3 server port. " ++
      lit "Set the value statically in the provider configuration.")

/-! ### The call of `NewClient` at `provider.go:97` against its declaration -/

/-- The Go types that occur in the declaration of `NewClient` and in its call. -/
inductive GoType where
  | string
  | int
  | pointer (elem : GoType)
deriving DecidableEq, Repr

/-- Parameter types of `func NewClient(host *string) (*Client, error)`
(`client.go:17`). -/
def NewClient_params : List GoType :=
  [GoType.pointer GoType.string]

/-- Types of the arguments in `client.NewClient(config.Host.Value, int(config.Port.Value))`
(`provider.go:97`): the string held by the host value, and a conversion to `int`. -/
def Configure_NewClient_args : List GoType :=
  [GoType.string, GoType.int]

/-- Assignability among the types above: none of them is an interface and the
arguments are typed values, so a value is assignable to its own type only. -/
def GoType.assignableTo (arg param : GoType) : Bool :=
  decide (arg = param)

/-- Whether a function with the given parameter types (none variadic) accepts a
call with the given argument types: as many arguments as parameters, each
assignable to its parameter. -/
def callTypeChecks (params args : List GoType) : Bool :=
  decide (args.length = params.length) && (List.zipWith GoType.assignableTo args params).all id

/-- The shape of the function that the call at `provider.go:97` needs: it takes
the host string and the port as an `int`, and returns a client and an error. -/
abbrev ClientConstructor := GoString → Int → Client × Option GoError

/-- The method `gns3Provider.Configure`.

The call at line 97, `client.NewClient(config.Host.Value, int(config.Port.Value))`,
does not match `NewClient` of `client.go`, which declares the single parameter
`host *string`; the source therefore fixes no function for this step. The
function as called is the parameter `newClient`, about which nothing is
assumed; the conversion `int(...)` leaves the number as it is. Every statement
before the call follows the source. The error result of the call is assigned
to `err` and never read. -/
def gns3Provider.Configure (_p : gns3Provider) (newClient : ClientConstructor)
    (req : ConfigureRequest) (resp : ConfigureResponse) : ConfigureResponse :=
  let (diags, config) := req.Config.Get
  let resp := { resp with Diagnostics := Diagnostics.Append resp.Diagnostics diags }
  if Diagnostics.HasError resp.Diagnostics then
    resp
  else
    let resp :=
      if config.Host.IsUnknown then
        { resp with Diagnostics :=
            (Diagnostics.AddAttributeError resp.Diagnostics
              (Root (lit "host"))
              (lit "Unknown GNS3 Host")
              (lit "The provider cannot create the GNS3 client as there is an unknown configuration value for the GNS3 server host. " ++
                lit "Set the value statically in the provider configuration.")) }
      else resp
    let resp :=
      if config.Port.IsUnknown then
        { resp with Diagnostics :=
            (Diagnostics.AddAttributeError resp.Diagnostics
              (Root (lit "port"))
              (lit "Unknown GNS3 Port")
              (lit "The provider cannot create the GNS3 client as there is an unknown configuration value for the GNS3 server port. " ++
                lit "Set the value statically in the provider configuration.")) }
      else resp
    if Diagnostics.HasError resp.Diagnostics then
      resp
    else
      let (client, _err) := newClient config.Host.Value config.Port.Value
      { resp with DataSourceData := AnyVal.clientPtr client, ResourceData := AnyVal.clientPtr client }

/-! ## Concrete inputs used to exercise the definitions -/

/-- A network that answers every request with the same outcome. -/
def netReply (r : DoResult) : Transport :=
  fun _ _ => r

/-- The client built with no host override. -/
def sampleClient : Client :=
  (NewClient none).1

/-- A request to the version endpoint. -/
def sampleRequest : Request :=
  { Method := lit "GET", URL := lit "http://localhost:3080/v2/version", Header := [], Body := [] }

/-- A stand-in of the called shape, for runs of `Configure` that return before
the call at line 97: it hands back the default client whatever it is given. -/
def stubNewClient : ClientConstructor :=
  fun _ _ => NewClient none

/-- A provider value as built by `New("test")`. -/
def sampleProvider : gns3Provider :=
  { version := lit "test" }

/-- A response with nothing recorded and no data published. -/
def emptyResponse : ConfigureResponse :=
  { Diagnostics := [], DataSourceData := AnyVal.nil, ResourceData := AnyVal.nil }

/-- An error diagnostic without attribute path, as recorded by an earlier stage. -/
def earlierError : Diagnostic :=
  { Severity := Severity.Error, Summary := lit "Earlier failure", Detail := lit "recorded before Configure",
    Path := none }

/-- A response that already carries an error diagnostic on entry. -/
def erroredResponse : ConfigureResponse :=
  { Diagnostics := [earlierError], DataSourceData := AnyVal.other 7, ResourceData := AnyVal.other 9 }

/-- A request whose configuration is read without diagnostics and holds the
given host and port values. -/
def requestOf (host : StringValue) (port : Int32Value) : ConfigureRequest :=
  { Config := { diags := [], model := { Host := host, Port := port } } }

/-- A value of `types.String` in the unknown state. -/
def unknownString : StringValue :=
  { state := AttrState.Unknown, Value := [] }

/-- A value of `basetypes.Int32Value` in the unknown state. -/
def unknownInt32 : Int32Value :=
  { state := AttrState.Unknown, Value := 0 }

/-- A known string value. -/
def knownString (v : GoString) : StringValue :=
  { state := AttrState.Known, Value := v }

/-- A known 32-bit integer value. -/
def knownInt32 (v : Int) : Int32Value :=
  { state := AttrState.Known, Value := v }

/-! ## Properties of the HTTP client -/

/-- C1: when the transport call succeeds, the body is read in full as `b` with
no read error and the status code is 200, `doRequest` returns exactly `b`
together with a nil error. -/
theorem doRequest_status_ok_returns_body (net : Transport) (c : Client) (req : Request)
    (res : Response) (b : Bytes)
    (hdo : net c.HTTPClient req = DoResult.ok res)
    (hread : res.Body = { data := b, err := none })
    (hcode : res.StatusCode = 200) :
    Client.doRequest net c req = (some b, none) := by
  simp [Client.doRequest, hdo, hread, hcode, StatusOK]

/-- A reply with status 200 whose body has leading and trailing blanks comes
back byte for byte. -/
theorem doRequest_status_ok_returns_body_witness :
    netReply (DoResult.ok { StatusCode := 200, Body := { data := lit " 2.2.44 \n", err := none } })
        sampleClient.HTTPClient sampleRequest
      = DoResult.ok { StatusCode := 200, Body := { data := lit " 2.2.44 \n", err := none } }
    ∧ Client.doRequest
        (netReply (DoResult.ok { StatusCode := 200, Body := { data := lit " 2.2.44 \n", err := none } }))
        sampleClient sampleRequest
      = (some (lit " 2.2.44 \n"), none) :=
  ⟨rfl, doRequest_status_ok_returns_body _ sampleClient sampleRequest _ _ rfl rfl rfl⟩

/-- C2: for a response with status code `s ≠ 200` whose body is read in full as
`b`, `doRequest` returns a nil body and an error built by `fmt.Errorf` whose
message is `status: <s>, body: <b>`; the message contains the decimal
rendering of `s` and the bytes of `b`. -/
theorem doRequest_non_ok_status_error (net : Transport) (c : Client) (req : Request)
    (res : Response) (b : Bytes)
    (hdo : net c.HTTPClient req = DoResult.ok res)
    (hread : res.Body = { data := b, err := none })
    (hcode : res.StatusCode ≠ 200) :
    ∃ msg : GoString,
      Client.doRequest net c req = (none, some (GoError.errorf msg))
      ∧ msg = lit "status: " ++ fmtInt res.StatusCode ++ lit ", body: " ++ b
      ∧ fmtInt res.StatusCode <:+: msg
      ∧ b <:+: msg := by
  refine ⟨lit "status: " ++ fmtInt res.StatusCode ++ lit ", body: " ++ b, ?_, rfl, ?_, ?_⟩
  · simp [Client.doRequest, hdo, hread, hcode, StatusOK, statusErrorf]
  · exact ⟨lit "status: ", lit ", body: " ++ b, by simp [List.append_assoc]⟩
  · exact ⟨lit "status: " ++ fmtInt res.StatusCode ++ lit ", body: ", [], by simp⟩

/-- A reply with status 404 and body `Not found`: the message holds the
digits `404` and the body. -/
theorem doRequest_non_ok_status_error_witness :
    fmtInt 404 = lit "404"
    ∧ ∃ msg : GoString,
      Client.doRequest
          (netReply (DoResult.ok { StatusCode := 404, Body := { data := lit "Not found", err := none } }))
          sampleClient sampleRequest
        = (none, some (GoError.errorf msg))
      ∧ msg = lit "status: " ++ fmtInt 404 ++ lit ", body: " ++ lit "Not found"
      ∧ fmtInt 404 <:+: msg
      ∧ lit "Not found" <:+: msg :=
  ⟨by decide,
   doRequest_non_ok_status_error
    (netReply (DoResult.ok { StatusCode := 404, Body := { data := lit "Not found", err := none } }))
    sampleClient sampleRequest
    { StatusCode := 404, Body := { data := lit "Not found", err := none } } (lit "Not found")
    rfl rfl (by decide)⟩

/-- C3: when the transport call fails with error `e`, `doRequest` returns a nil
body together with `e` itself, whatever response accompanied the error. -/
theorem doRequest_transport_failure (net : Transport) (c : Client) (req : Request)
    (r : Option Response) (e : GoError)
    (hdo : net c.HTTPClient req = DoResult.failed r e) :
    Client.doRequest net c req = (none, some e) := by
  simp [Client.doRequest, hdo]

/-- A refused connection: the error of the transport comes back with a nil body. -/
theorem doRequest_transport_failure_witness :
    netReply (DoResult.failed none (GoError.foreign 111)) sampleClient.HTTPClient sampleRequest
      = DoResult.failed none (GoError.foreign 111)
    ∧ Client.doRequest (netReply (DoResult.failed none (GoError.foreign 111))) sampleClient sampleRequest
      = (none, some (GoError.foreign 111)) :=
  ⟨rfl, doRequest_transport_failure _ sampleClient sampleRequest none (GoError.foreign 111) rfl⟩

/-- C4: `NewClient` called with a nil host pointer returns a client whose
`HostURL` is `http://localhost:3080`, with a nil error. -/
theorem NewClient_nil_host_default :
    (NewClient none).1.HostURL = lit "http://localhost:3080" ∧ (NewClient none).2 = none :=
  ⟨rfl, rfl⟩

/-- C5: `NewClient` called with a pointer to any string `h` returns a client
whose `HostURL` is `h` itself, byte for byte, with a nil error; in particular
the empty string and a string with a trailing slash are kept as they are. -/
theorem NewClient_host_verbatim (h : GoString) :
    (NewClient (some h)).1.HostURL = h
    ∧ (NewClient (some h)).2 = none
    ∧ (NewClient (some [])).1.HostURL = []
    ∧ (NewClient (some (lit "http://example:1/"))).1.HostURL = lit "http://example:1/" :=
  ⟨rfl, rfl, rfl, rfl⟩

/-- C10: `doRequest` returns a nil error exactly when the transport call
succeeded, the body was read without error and the status code is 200; a
result never carries both a body and an error, and a body-read failure is
returned as the error with a nil body whatever the status code. -/
theorem doRequest_nil_error_iff (net : Transport) (c : Client) (req : Request) :
    ((Client.doRequest net c req).2 = none ↔
      ∃ res, net c.HTTPClient req = DoResult.ok res ∧ res.Body.err = none ∧ res.StatusCode = 200)
    ∧ ((Client.doRequest net c req).2 = none ∨ (Client.doRequest net c req).1 = none)
    ∧ (∀ code data e, net c.HTTPClient req
          = DoResult.ok { StatusCode := code, Body := { data := data, err := some e } } →
        Client.doRequest net c req = (none, some e)) := by
  refine ⟨?_, ?_, ?_⟩
  · unfold Client.doRequest
    cases hdo : net c.HTTPClient req with
    | failed r e => simp
    | ok res =>
      cases herr : res.Body.err with
      | some e => simp [herr]
      | none =>
        by_cases hcode : res.StatusCode = 200
        · simp [herr, hcode, StatusOK]
        · simp [herr, hcode, StatusOK]
  · unfold Client.doRequest
    cases hdo : net c.HTTPClient req with
    | failed r e => simp
    | ok res =>
      cases herr : res.Body.err with
      | some e => simp [herr]
      | none =>
        by_cases hcode : res.StatusCode = StatusOK
        · simp [herr, hcode]
        · simp [herr, hcode]
  · intro code data e hdo
    simp [Client.doRequest, hdo]

/-! ## Lemmas on diagnostics collections -/

theorem HasError_concat (D E : Diagnostics) :
    Diagnostics.HasError (D ++ E) = (Diagnostics.HasError D || Diagnostics.HasError E) := by
  simp [Diagnostics.HasError]

theorem HasError_of_Contains (D : Diagnostics) (d : Diagnostic)
    (hc : Diagnostics.Contains D d = true) (hd : d.Severity = Severity.Error) :
    Diagnostics.HasError D = true := by
  simp only [Diagnostics.Contains, Diagnostics.HasError, List.any_eq_true, decide_eq_true_eq] at *
  obtain ⟨x, hx, hxd⟩ := hc
  exact ⟨x, hx, hxd ▸ hd⟩

theorem Contains_eq_false_of_no_error (D : Diagnostics) (d : Diagnostic)
    (hD : Diagnostics.HasError D = false) (hd : d.Severity = Severity.Error) :
    Diagnostics.Contains D d = false := by
  cases hc : Diagnostics.Contains D d with
  | false => rfl
  | true =>
    have := HasError_of_Contains D d hc hd
    rw [hD] at this
    exact absurd this (by decide)

theorem Append_cons (D : Diagnostics) (d : Diagnostic) (N : List Diagnostic) :
    Diagnostics.Append D (d :: N)
      = Diagnostics.Append (if Diagnostics.Contains D d then D else D ++ [d]) N :=
  rfl

theorem HasError_Append (D : Diagnostics) (N : List Diagnostic) :
    Diagnostics.HasError (Diagnostics.Append D N)
      = (Diagnostics.HasError D || Diagnostics.HasError N) := by
  induction N generalizing D with
  | nil => simp [Diagnostics.Append, Diagnostics.HasError]
  | cons d N ih =>
    rw [Append_cons, ih]
    have hcons : Diagnostics.HasError (d :: N)
        = (decide (d.Severity = Severity.Error) || Diagnostics.HasError N) := by
      simp [Diagnostics.HasError]
    by_cases hc : Diagnostics.Contains D d = true
    · rw [if_pos hc, hcons]
      by_cases hd : d.Severity = Severity.Error
      · rw [HasError_of_Contains D d hc hd]
        simp
      · simp [hd]
    · rw [if_neg hc, HasError_concat, hcons]
      simp [Diagnostics.HasError, Bool.or_assoc]

theorem Append_single_error (D : Diagnostics) (d : Diagnostic)
    (hD : Diagnostics.HasError D = false) (hd : d.Severity = Severity.Error) :
    Diagnostics.Append D [d] = D ++ [d] := by
  simp [Diagnostics.Append, Contains_eq_false_of_no_error D d hD hd]

theorem errorCount_eq_zero (D : Diagnostics) (hD : Diagnostics.HasError D = false) :
    Diagnostics.errorCount D = 0 := by
  simp only [Diagnostics.HasError, Diagnostics.errorCount] at *
  rw [List.countP_eq_zero]
  intro x hx
  have := (List.any_eq_false.mp hD) x hx
  simpa using this

theorem hostUnknownError_ne_portUnknownError : hostUnknownError ≠ portUnknownError := by
  intro h
  have hp : hostUnknownError.Path = portUnknownError.Path := by rw [h]
  exact absurd hp (by decide)

theorem addHostError (B : Diagnostics) (hB : Diagnostics.HasError B = false) :
    Diagnostics.AddAttributeError B (Root (lit "host")) hostUnknownError.Summary
        hostUnknownError.Detail
      = B ++ [hostUnknownError] :=
  Append_single_error B hostUnknownError hB rfl

theorem addPortError (B : Diagnostics) (hB : Diagnostics.HasError B = false) :
    Diagnostics.AddAttributeError B (Root (lit "port")) portUnknownError.Summary
        portUnknownError.Detail
      = B ++ [portUnknownError] :=
  Append_single_error B portUnknownError hB rfl

theorem addPortError_after_host (B : Diagnostics) (hB : Diagnostics.HasError B = false) :
    Diagnostics.AddAttributeError (B ++ [hostUnknownError]) (Root (lit "port"))
        portUnknownError.Summary portUnknownError.Detail
      = B ++ [hostUnknownError] ++ [portUnknownError] := by
  have hc : Diagnostics.Contains (B ++ [hostUnknownError]) portUnknownError = false := by
    have h1 := Contains_eq_false_of_no_error B portUnknownError hB rfl
    simp only [Diagnostics.Contains] at h1
    simp [Diagnostics.Contains, List.any_append, h1, hostUnknownError_ne_portUnknownError]
  show Diagnostics.Append (B ++ [hostUnknownError]) [portUnknownError] = _
  simp [Diagnostics.Append, hc]

/-- The response `Configure` leaves when nothing is in error after the
configuration read: one error per unknown field, in source order, and the data
fields untouched; or, with both fields not unknown, the client published. -/
theorem Configure_of_clean_read (p : gns3Provider) (k : ClientConstructor) (req : ConfigureRequest)
    (resp : ConfigureResponse)
    (hB : Diagnostics.HasError (Diagnostics.Append resp.Diagnostics req.Config.diags) = false) :
    p.Configure k req resp
      = if (req.Config.model.Host.IsUnknown || req.Config.model.Port.IsUnknown) = true then
          { resp with Diagnostics :=
              Diagnostics.Append resp.Diagnostics req.Config.diags
                ++ (if req.Config.model.Host.IsUnknown then [hostUnknownError] else [])
                ++ (if req.Config.model.Port.IsUnknown then [portUnknownError] else []) }
        else
          { Diagnostics := Diagnostics.Append resp.Diagnostics req.Config.diags
            DataSourceData :=
              AnyVal.clientPtr (k req.Config.model.Host.Value req.Config.model.Port.Value).1
            ResourceData :=
              AnyVal.clientPtr (k req.Config.model.Host.Value req.Config.model.Port.Value).1 } := by
  have hH : Diagnostics.AddAttributeError
      (Diagnostics.Append resp.Diagnostics req.Config.diags) (Root (lit "host"))
      (lit "Unknown GNS3 Host")
      (lit "The provider cannot create the GNS3 client as there is an unknown configuration value for the GNS3 server host. " ++
        lit "Set the value statically in the provider configuration.")
      = Diagnostics.Append resp.Diagnostics req.Config.diags ++ [hostUnknownError] :=
    addHostError _ hB
  have hP : Diagnostics.AddAttributeError
      (Diagnostics.Append resp.Diagnostics req.Config.diags) (Root (lit "port"))
      (lit "Unknown GNS3 Port")
      (lit "The provider cannot create the GNS3 client as there is an unknown configuration value for the GNS3 server port. " ++
        lit "Set the value statically in the provider configuration.")
      = Diagnostics.Append resp.Diagnostics req.Config.diags ++ [portUnknownError] :=
    addPortError _ hB
  have hHP : Diagnostics.AddAttributeError
      (Diagnostics.Append resp.Diagnostics req.Config.diags ++ [hostUnknownError])
      (Root (lit "port"))
      (lit "Unknown GNS3 Port")
      (lit "The provider cannot create the GNS3 client as there is an unknown configuration value for the GNS3 server port. " ++
        lit "Set the value statically in the provider configuration.")
      = Diagnostics.Append resp.Diagnostics req.Config.diags ++ [hostUnknownError]
          ++ [portUnknownError] :=
    addPortError_after_host _ hB
  have hEh : ∀ D : Diagnostics, Diagnostics.HasError (D ++ [hostUnknownError]) = true := by
    intro D
    rw [HasError_concat]
    simp [Diagnostics.HasError, hostUnknownError, NewAttributeErrorDiagnostic]
  have hEp : ∀ D : Diagnostics, Diagnostics.HasError (D ++ [portUnknownError]) = true := by
    intro D
    rw [HasError_concat]
    simp [Diagnostics.HasError, portUnknownError, NewAttributeErrorDiagnostic]
  unfold gns3Provider.Configure
  by_cases hh : req.Config.model.Host.IsUnknown = true
  · by_cases hp : req.Config.model.Port.IsUnknown = true
    · simp only [ConfigData.Get, hB, hh, hp, hH, hHP, hEp, if_true, if_false, Bool.false_eq_true,
        Bool.or_self]
    · simp only [ConfigData.Get, hB, hh, hp, hH, hEh, if_true, if_false, Bool.false_eq_true,
        List.append_nil, Bool.or_false, Bool.true_or]
  · by_cases hp : req.Config.model.Port.IsUnknown = true
    · simp only [ConfigData.Get, hB, hh, hp, hP, hEp, if_true, if_false, Bool.false_eq_true,
        List.append_nil, Bool.or_true]
    · simp only [ConfigData.Get, hB, hh, hp, if_true, if_false, Bool.false_eq_true,
        List.append_nil, Bool.or_false]

/-- The response `Configure` leaves when the diagnostics are in error after the
configuration read: the appended diagnostics and nothing else. -/
theorem Configure_of_read_error (p : gns3Provider) (k : ClientConstructor) (req : ConfigureRequest)
    (resp : ConfigureResponse)
    (hB : Diagnostics.HasError (Diagnostics.Append resp.Diagnostics req.Config.diags) = true) :
    p.Configure k req resp
      = { resp with Diagnostics := Diagnostics.Append resp.Diagnostics req.Config.diags } := by
  unfold gns3Provider.Configure
  simp only [ConfigData.Get, hB, if_true]

/-! ## Properties of the provider shell -/

/-- C6 (as stated, refuted): with a configuration read that produces no
diagnostic, an unknown host and a known port, `Configure` called on a response
that already carries an error adds no diagnostic at all: the diagnostics are
those of entry and no error is attributed to `host`, so the number of errors
does not grow by one per unknown field whenever the read is free of errors. -/
theorem Configure_entry_error_adds_no_diagnostic :
    Diagnostics.HasError (requestOf unknownString (knownInt32 3080)).Config.diags = false
    ∧ (requestOf unknownString (knownInt32 3080)).Config.model.Host.IsUnknown = true
    ∧ (requestOf unknownString (knownInt32 3080)).Config.model.Port.IsUnknown = false
    ∧ (sampleProvider.Configure stubNewClient (requestOf unknownString (knownInt32 3080)) erroredResponse).Diagnostics
        = erroredResponse.Diagnostics
    ∧ Diagnostics.errorCount
          (sampleProvider.Configure stubNewClient (requestOf unknownString (knownInt32 3080)) erroredResponse).Diagnostics
        = Diagnostics.errorCount erroredResponse.Diagnostics
    ∧ hostUnknownError ∉
        (sampleProvider.Configure stubNewClient (requestOf unknownString (knownInt32 3080)) erroredResponse).Diagnostics
    ∧ ¬ (∀ (p : gns3Provider) (k : ClientConstructor) (req : ConfigureRequest) (resp : ConfigureResponse),
          Diagnostics.HasError req.Config.diags = false →
          Diagnostics.errorCount (p.Configure k req resp).Diagnostics
            = Diagnostics.errorCount resp.Diagnostics
              + ((if req.Config.model.Host.IsUnknown then 1 else 0)
                + (if req.Config.model.Port.IsUnknown then 1 else 0))) := by
  refine ⟨by decide, by decide, by decide, by decide, by decide, by decide, ?_⟩
  intro hall
  have h := hall sampleProvider stubNewClient (requestOf unknownString (knownInt32 3080)) erroredResponse rfl
  revert h
  decide

/-- C6 (amended): when the response carries no error on entry and reading the
configuration produces no error, `Configure` leaves the diagnostics present
after the read followed by exactly one error per unknown field and none for a
field that is not unknown: the error for `host` (attributed to path `host`) if
the host is unknown, then the error for `port` (attributed to path `port`) if
the port is unknown, the port being checked whatever the host check gave. -/
theorem Configure_one_error_per_unknown_field (p : gns3Provider) (k : ClientConstructor) (req : ConfigureRequest)
    (resp : ConfigureResponse)
    (hentry : Diagnostics.HasError resp.Diagnostics = false)
    (hread : Diagnostics.HasError req.Config.diags = false) :
    (p.Configure k req resp).Diagnostics
        = Diagnostics.Append resp.Diagnostics req.Config.diags
            ++ (if req.Config.model.Host.IsUnknown then [hostUnknownError] else [])
            ++ (if req.Config.model.Port.IsUnknown then [portUnknownError] else [])
    ∧ Diagnostics.errorCount (Diagnostics.Append resp.Diagnostics req.Config.diags) = 0
    ∧ Diagnostics.errorCount (p.Configure k req resp).Diagnostics
        = (if req.Config.model.Host.IsUnknown then 1 else 0)
          + (if req.Config.model.Port.IsUnknown then 1 else 0)
    ∧ hostUnknownError.Severity = Severity.Error
    ∧ hostUnknownError.Path = some (Root (lit "host"))
    ∧ portUnknownError.Severity = Severity.Error
    ∧ portUnknownError.Path = some (Root (lit "port")) := by
  have hB : Diagnostics.HasError (Diagnostics.Append resp.Diagnostics req.Config.diags) = false := by
    rw [HasError_Append, hentry, hread]
    rfl
  have h0 := errorCount_eq_zero _ hB
  have hD : (p.Configure k req resp).Diagnostics
      = Diagnostics.Append resp.Diagnostics req.Config.diags
          ++ (if req.Config.model.Host.IsUnknown then [hostUnknownError] else [])
          ++ (if req.Config.model.Port.IsUnknown then [portUnknownError] else []) := by
    rw [Configure_of_clean_read p k req resp hB]
    cases hh : req.Config.model.Host.IsUnknown <;> cases hp : req.Config.model.Port.IsUnknown <;> simp
  refine ⟨hD, h0, ?_, rfl, rfl, rfl, rfl⟩
  rw [hD]
  simp only [Diagnostics.errorCount, List.countP_append] at h0 ⊢
  rw [h0]
  cases hh : req.Config.model.Host.IsUnknown <;> cases hp : req.Config.model.Port.IsUnknown <;>
    simp [hostUnknownError, portUnknownError, NewAttributeErrorDiagnostic]

/-- On a fresh response with a clean read: host unknown and port known gives the
one error for `host`; host known and port unknown the one error for `port`;
both unknown the two errors, host first. -/
theorem Configure_one_error_per_unknown_field_witness :
    Diagnostics.HasError emptyResponse.Diagnostics = false
    ∧ Diagnostics.HasError (requestOf unknownString unknownInt32).Config.diags = false
    ∧ (sampleProvider.Configure stubNewClient (requestOf unknownString (knownInt32 3080)) emptyResponse).Diagnostics
        = [hostUnknownError]
    ∧ (sampleProvider.Configure stubNewClient (requestOf (knownString (lit "gns3.example.org")) unknownInt32)
          emptyResponse).Diagnostics
        = [portUnknownError]
    ∧ (sampleProvider.Configure stubNewClient (requestOf unknownString unknownInt32) emptyResponse).Diagnostics
        = [hostUnknownError, portUnknownError]
    ∧ Diagnostics.errorCount
          (sampleProvider.Configure stubNewClient (requestOf unknownString unknownInt32) emptyResponse).Diagnostics
        = 2 :=
  ⟨rfl, rfl,
   (Configure_one_error_per_unknown_field sampleProvider stubNewClient (requestOf unknownString (knownInt32 3080))
      emptyResponse rfl rfl).1,
   (Configure_one_error_per_unknown_field sampleProvider stubNewClient
      (requestOf (knownString (lit "gns3.example.org")) unknownInt32) emptyResponse rfl rfl).1,
   (Configure_one_error_per_unknown_field sampleProvider stubNewClient (requestOf unknownString unknownInt32)
      emptyResponse rfl rfl).1,
   (Configure_one_error_per_unknown_field sampleProvider stubNewClient (requestOf unknownString unknownInt32)
      emptyResponse rfl rfl).2.2.1⟩

/-- C7 (the defect in the code): the call of `NewClient` at `provider.go:97`
hands two arguments, a string and an `int`, to a function declared with the
single parameter `host *string`; the call does not type-check (wrong number of
arguments, and a string where a pointer is wanted), so the source fixes no
client for a known host and port. Up to the call the code does what the claim
says: whatever function `k` of the called shape stands at line 97, with a
known host `h` and a known port `n` read without diagnostics into an empty
response, `Configure` adds no diagnostic and sets both data fields to the one
client that `k` returns for `h` and `n`. -/
theorem Configure_NewClient_call_mismatch (p : gns3Provider) (k : ClientConstructor)
    (h : GoString) (n : Int) :
    NewClient_params.length = 1
    ∧ Configure_NewClient_args.length = 2
    ∧ (List.zipWith GoType.assignableTo Configure_NewClient_args NewClient_params) = [false]
    ∧ callTypeChecks NewClient_params Configure_NewClient_args = false
    ∧ p.Configure k (requestOf (knownString h) (knownInt32 n)) emptyResponse
        = { Diagnostics := []
            DataSourceData := AnyVal.clientPtr (k h n).1
            ResourceData := AnyVal.clientPtr (k h n).1 } :=
  ⟨rfl, rfl, rfl, rfl, rfl⟩

/-- C8: when the configuration read reports an error, or the host is unknown, or
the port is unknown, `Configure` returns with an error among the diagnostics
and with `DataSourceData` and `ResourceData` exactly as they were on entry. -/
theorem Configure_error_keeps_data (p : gns3Provider) (k : ClientConstructor) (req : ConfigureRequest)
    (resp : ConfigureResponse)
    (h : Diagnostics.HasError req.Config.diags = true
      ∨ req.Config.model.Host.IsUnknown = true
      ∨ req.Config.model.Port.IsUnknown = true) :
    Diagnostics.HasError (p.Configure k req resp).Diagnostics = true
    ∧ (p.Configure k req resp).DataSourceData = resp.DataSourceData
    ∧ (p.Configure k req resp).ResourceData = resp.ResourceData := by
  cases hB : Diagnostics.HasError (Diagnostics.Append resp.Diagnostics req.Config.diags) with
  | true =>
    rw [Configure_of_read_error p k req resp hB]
    exact ⟨hB, rfl, rfl⟩
  | false =>
    have hread : Diagnostics.HasError req.Config.diags = false := by
      have h2 := hB
      rw [HasError_Append] at h2
      cases hr : Diagnostics.HasError req.Config.diags with
      | false => rfl
      | true => rw [hr] at h2; simp at h2
    have hu : (req.Config.model.Host.IsUnknown || req.Config.model.Port.IsUnknown) = true := by
      rcases h with h | h | h
      · rw [hread] at h
        exact absurd h (by decide)
      · simp [h]
      · simp [h]
    rw [Configure_of_clean_read p k req resp hB, if_pos hu]
    refine ⟨?_, rfl, rfl⟩
    show Diagnostics.HasError (_ ++ _ ++ _) = true
    rw [HasError_concat, HasError_concat]
    rcases h with h | h | h
    · rw [hread] at h
      exact absurd h (by decide)
    · simp [h, Diagnostics.HasError, hostUnknownError, NewAttributeErrorDiagnostic]
    · simp [h, Diagnostics.HasError, portUnknownError, NewAttributeErrorDiagnostic]

/-- A known host with an unknown port: the data fields keep their entry values. -/
theorem Configure_error_keeps_data_witness :
    (Diagnostics.HasError (requestOf (knownString (lit "gns3.example.org")) unknownInt32).Config.diags = true
      ∨ (requestOf (knownString (lit "gns3.example.org")) unknownInt32).Config.model.Host.IsUnknown = true
      ∨ (requestOf (knownString (lit "gns3.example.org")) unknownInt32).Config.model.Port.IsUnknown = true)
    ∧ Diagnostics.HasError
        (sampleProvider.Configure stubNewClient (requestOf (knownString (lit "gns3.example.org")) unknownInt32)
          { Diagnostics := [], DataSourceData := AnyVal.other 7, ResourceData := AnyVal.other 9 }).Diagnostics
        = true
    ∧ (sampleProvider.Configure stubNewClient (requestOf (knownString (lit "gns3.example.org")) unknownInt32)
          { Diagnostics := [], DataSourceData := AnyVal.other 7, ResourceData := AnyVal.other 9 }).DataSourceData
        = AnyVal.other 7
    ∧ (sampleProvider.Configure stubNewClient (requestOf (knownString (lit "gns3.example.org")) unknownInt32)
          { Diagnostics := [], DataSourceData := AnyVal.other 7, ResourceData := AnyVal.other 9 }).ResourceData
        = AnyVal.other 9 :=
  ⟨Or.inr (Or.inr rfl),
   Configure_error_keeps_data sampleProvider stubNewClient (requestOf (knownString (lit "gns3.example.org")) unknownInt32)
     { Diagnostics := [], DataSourceData := AnyVal.other 7, ResourceData := AnyVal.other 9 }
     (Or.inr (Or.inr rfl))⟩

/-- C9 (evaluation of the code): `Schema` declares exactly the attributes `host`,
a string attribute, and `port`, a 32-bit integer attribute, each with
`Optional` false, and each with `Required` false: the field `Required` is
set for neither. -/
theorem Schema_attributes_not_marked_required (p : gns3Provider) (resp : SchemaResponse) :
    (p.Schema resp).Schema.Attributes.map Prod.fst = [lit "host", lit "port"]
    ∧ ((p.Schema resp).Schema.attr (lit "host")).map (fun a => (a.kind, a.Required, a.Optional))
        = some (AttrKind.StringAttribute, false, false)
    ∧ ((p.Schema resp).Schema.attr (lit "port")).map (fun a => (a.kind, a.Required, a.Optional))
        = some (AttrKind.Int32Attribute, false, false) :=
  ⟨rfl, rfl, rfl⟩

end GNS3
